import Mathlib

/-
  Shallow embedding of the webhook-to-notification pipeline of
  annaena_bot_notify.py (the storage+analytics variant the spec follows).

  Modelling conventions:
  * Python values decoded from JSON are the inductive `Json` below
    (numbers restricted to integers; no claim depends on floats).
    `json.loads` is modelled as an oracle `decode : String -> Option Json`
    carried in the environment; `none` models `json.JSONDecodeError`.
  * Python `str(value)` inside the notification f-string is modelled by an
    oracle `strFn : Json -> String`; no claim depends on its behaviour on
    non-string values.
  * Effects of a handler run (log lines, reply_text calls, send_message
    calls, row inserts) are collected in an ordered trace. A reply or send
    effect records that the call was made; whether the call then raises is
    controlled by the environment flags.
  * The sqlite database is a table catalog plus the rows of the
    `submissions` table. Connection failures, insert failures and the
    TEXT-affinity conversion of bound values are modelled explicitly,
    following sqlite3 semantics (supported bind types are None, int, bool,
    str; list and dict raise InterfaceError, a subclass of sqlite3.Error;
    integers stored in a TEXT column are converted to their decimal text).
  * Exceptions are `Option PyError` results: `some e` means the Python code
    raises `e` past the modelled function.
-/

namespace AnnaenaBot

/-- Python values produced by json.loads (numbers restricted to integers). -/
inductive Json where
  | null : Json
  | bool : Bool → Json
  | num : Int → Json
  | str : String → Json
  | arr : List Json → Json
  | obj : List (String × Json) → Json

/-- Exception classes that can cross the boundaries of the modelled code. -/
inductive PyError where
  | attributeError
  | keyError
  | unboundLocalError
  | sqliteError
  | networkError
deriving DecidableEq

/-- A value as stored in a sqlite TEXT column: NULL or text. -/
inductive SqlValue where
  | null : SqlValue
  | text : String → SqlValue
deriving DecidableEq

/-- One row of the submissions table. -/
structure Row where
  id : Nat
  name : SqlValue
  email : SqlValue
  phone : SqlValue
  course_interest : SqlValue
deriving DecidableEq

/-- The sqlite database: table catalog (name, column names) and the rows of
the submissions table. -/
structure DbState where
  tables : List (String × List String)
  rows : List Row
deriving DecidableEq

/-- Observable actions of one handler run, in order. -/
inductive Effect where
  | logDebug : Effect
  | logError : String → Effect
  | logInfo : String → Effect
  | logException : Effect
  | reply : String → Effect
  | sendMessage : String → String → Effect
  | insert : SqlValue → SqlValue → SqlValue → SqlValue → Effect
deriving DecidableEq

/-- telegram message: only the text field matters to this pipeline. -/
structure Message where
  text : Option String
deriving DecidableEq

/-- telegram update: `message` may be absent. -/
structure Update where
  message : Option Message
deriving DecidableEq

/-- Behaviour of the external collaborators during one run: whether
sqlite3.connect raises, whether the INSERT raises sqlite3.Error, whether
bot.send_message raises, whether reply_text raises; the configured
recipient chat id; the str() oracle and the json.loads oracle. -/
structure Env where
  connectErr : Bool
  insertErr : Bool
  sendErr : Bool
  replyErr : Bool
  chatId : String
  strFn : Json → String
  decode : String → Option Json

/-- Columns created by init_db for the submissions table. -/
def submissionsColumns : List String :=
  ["id", "name", "email", "phone", "course_interest"]

/-- Default value substituted by the parser for a missing field. -/
def notProvided : Json := Json.str "Not provided"

/-- Python dict .get with a default (dict modelled as association list,
lookup is the first matching key). -/
def dictGet (kvs : List (String × Json)) (k : String) (dflt : Json) : Json :=
  match kvs.find? (fun p => p.1 == k) with
  | some p => p.2
  | none => dflt

/-- Python dict subscription: raises KeyError when the key is absent. -/
def dictLookup (kvs : List (String × Json)) (k : String) :
    Except PyError Json :=
  match kvs.find? (fun p => p.1 == k) with
  | some p => Except.ok p.2
  | none => Except.error PyError.keyError

/-- The dict comprehension inside parse_form_data: the four recognized
fields each bound to its .get lookup, in insertion order. -/
def parsedOf (kvs : List (String × Json)) : List (String × Json) :=
  (["name", "email", "phone", "course_interest"]).map
    (fun f => (f, dictGet kvs f notProvided))

/-- Source translation of annaena_bot_notify.parse_form_data: dict
comprehension over the four recognized fields, defaulting each to the
string "Not provided"; attribute access .get raises AttributeError when
data is not a dict. -/
def parse_form_data (data : Json) :
    Except PyError (List (String × Json)) :=
  match data with
  | Json.obj kvs => Except.ok (parsedOf kvs)
  | _ => Except.error PyError.attributeError

/-- Python str.capitalize: first character uppercased, rest lowercased. -/
def pyCapitalize (s : String) : String :=
  match s.data with
  | [] => ""
  | c :: cs => String.mk (c.toUpper :: cs.map Char.toLower)

/-- Binding a Python value as a sqlite parameter into a TEXT column:
None stays NULL; bool adapts to int 1/0 then TEXT affinity renders it;
int is rendered as decimal text; str is stored as is; list and dict raise
InterfaceError, a sqlite3.Error. -/
def bindValue : Json → Except PyError SqlValue
  | Json.null => Except.ok SqlValue.null
  | Json.bool b => Except.ok (SqlValue.text (if b then "1" else "0"))
  | Json.num n => Except.ok (SqlValue.text (toString n))
  | Json.str s => Except.ok (SqlValue.text s)
  | Json.arr _ => Except.error PyError.sqliteError
  | Json.obj _ => Except.error PyError.sqliteError

/-- Auto-assigned INTEGER PRIMARY KEY for a fresh row: one more than the
largest existing id. -/
def nextId (rows : List Row) : Nat :=
  (rows.foldl (fun m r => max m r.id) 0) + 1

/-- Lookup of a table in the catalog by name. -/
def getTable (tables : List (String × List String)) (name : String) :
    Option (List String) :=
  match tables.find? (fun p => p.1 == name) with
  | some p => some p.2
  | none => none

/-- Source translation of init_db: connect, CREATE TABLE IF NOT EXISTS
submissions, commit, close. A connection failure raises out of init_db. -/
def init_db (env : Env) (s : DbState) : DbState × Option PyError :=
  if env.connectErr then (s, some PyError.sqliteError)
  else if s.tables.any (fun p => p.1 == "submissions") then (s, none)
  else (DbState.mk (s.tables ++ [("submissions", submissionsColumns)]) s.rows,
        none)

/-- The four subscript lookups data[...] evaluated left to right while
building the parameter tuple of the INSERT. -/
def lookupFour (data : List (String × Json)) :
    Except PyError (Json × Json × Json × Json) := do
  let n ← dictLookup data "name"
  let e ← dictLookup data "email"
  let p ← dictLookup data "phone"
  let c ← dictLookup data "course_interest"
  pure (n, e, p, c)

/-- Source translation of store_submission. The try block connects, builds
the parameter tuple (KeyError from a missing key is not a sqlite3.Error and
propagates), executes the INSERT and commits; `except sqlite3.Error` logs
and swallows database errors. When the connect itself raises sqlite3.Error,
the except clause handles it but the finally clause then evaluates
`conn.close()` with the local `conn` never assigned, raising
UnboundLocalError out of the function. -/
def store_submission (env : Env) (s : DbState)
    (data : List (String × Json)) :
    List Effect × DbState × Option PyError :=
  if env.connectErr then
    ([Effect.logError "Error inserting into database"], s,
     some PyError.unboundLocalError)
  else
    match lookupFour data with
    | Except.error e => ([], s, some e)
    | Except.ok (jn, je, jp, jc) =>
      match bindValue jn, bindValue je, bindValue jp, bindValue jc with
      | Except.ok vn, Except.ok ve, Except.ok vp, Except.ok vc =>
        if env.insertErr then
          ([Effect.logError "Error inserting into database"], s, none)
        else
          match getTable s.tables "submissions" with
          | some cols =>
            if cols = submissionsColumns then
              ([Effect.insert vn ve vp vc],
               DbState.mk s.tables
                 (s.rows ++ [Row.mk (nextId s.rows) vn ve vp vc]),
               none)
            else ([Effect.logError "Error inserting into database"], s, none)
          | none =>
            ([Effect.logError "Error inserting into database"], s, none)
      | _, _, _, _ =>
        ([Effect.logError "Error inserting into database"], s, none)

/-- Model of update.message.reply_text(txt): attribute access on None
raises AttributeError before any call is made; otherwise the call is made
(recorded in the trace) and raises a network error iff the environment says
the reply transport fails. -/
def reply_text (env : Env) (u : Update) (txt : String) :
    List Effect × Option PyError :=
  match u.message with
  | none => ([], some PyError.attributeError)
  | some _ =>
    ([Effect.reply txt], if env.replyErr then some PyError.networkError
                         else none)

/-- Source translation of the notification message construction: header
f-string, then one appended f-string line per parsed item in insertion
order. -/
def notification_message (strFn : Json → String)
    (parsed : List (String × Json)) : String :=
  parsed.foldl
    (fun acc fv =>
      acc ++ "*" ++ pyCapitalize fv.1 ++ ":* " ++ strFn fv.2 ++ "\n")
    "📬 *New Form Submission!*\n\n"

/-- Result of one webhook_handler run: ordered trace, final database
state, and the exception escaping the handler, when any. -/
structure HResult where
  effects : List Effect
  db : DbState
  raised : Option PyError
deriving DecidableEq

/-- The body of webhook_handler's outer try block, translated statement by
statement: debug log; message/text presence check (note the reply on this
path goes through update.message, which is None exactly when the check
fired on a missing message); json.loads with its dedicated except clause;
parse_form_data; store_submission; building and sending the notification;
the acknowledgment reply; the final info log. -/
def webhookBody (env : Env) (s : DbState) (u : Update) :
    List Effect × DbState × Option PyError :=
  let e0 := [Effect.logDebug]
  match u.message with
  | none =>
    (e0 ++ [Effect.logError "Received update without message text."], s,
     some PyError.attributeError)
  | some m =>
    match m.text with
    | none =>
      let r := reply_text env u "No valid message received."
      (e0 ++ [Effect.logError "Received update without message text."]
          ++ r.1, s, r.2)
    | some t =>
      match env.decode t with
      | none =>
        let r := reply_text env u
          "Invalid data format received. Please submit valid JSON."
        (e0 ++ [Effect.logError "JSON decode error"] ++ r.1, s, r.2)
      | some data =>
        match parse_form_data data with
        | Except.error e => (e0, s, some e)
        | Except.ok parsed =>
          match store_submission env s parsed with
          | (es1, s1, some e) => (e0 ++ es1, s1, some e)
          | (es1, s1, none) =>
            let msg := notification_message env.strFn parsed
            let es2 := e0 ++ es1 ++ [Effect.sendMessage env.chatId msg]
            if env.sendErr then (es2, s1, some PyError.networkError)
            else
              let r := reply_text env u "Thank you for your submission!"
              match r.2 with
              | some e => (es2 ++ r.1, s1, some e)
              | none =>
                (es2 ++ r.1
                   ++ [Effect.logInfo "Processed a webhook request successfully"],
                 s1, none)

/-- Source translation of webhook_handler: the body above wrapped in
`except Exception`, which logs the exception and then replies through
update.message with the generic error text; when that reply itself raises
(absent message, or failing reply transport) the exception leaves the
handler. -/
def webhook_handler (env : Env) (s : DbState) (u : Update) : HResult :=
  match webhookBody env s u with
  | (es, s1, none) => HResult.mk es s1 none
  | (es, s1, some _) =>
    let r := reply_text env u
      "An error occurred while processing your request."
    HResult.mk (es ++ [Effect.logException] ++ r.1) s1 r.2

/-- Source translation of the analytics command handler: connect, SELECT
COUNT(*) FROM submissions (raising sqlite3.OperationalError when the table
does not exist), close, reply with the count, log. No try block: any
exception propagates to the framework. -/
def analytics (env : Env) (s : DbState) (u : Update) :
    List Effect × Option PyError :=
  if env.connectErr then ([], some PyError.sqliteError)
  else
    match getTable s.tables "submissions" with
    | none => ([], some PyError.sqliteError)
    | some _ =>
      let r := reply_text env u
        ("Total submissions: " ++ toString s.rows.length)
      match r.2 with
      | none => (r.1 ++ [Effect.logInfo "Executed analytics command"], none)
      | some e => (r.1, some e)

/-- The database-touching operations of the program, for stating
whole-program storage invariants. -/
inductive Op where
  | initOp : Env → Op
  | webhookOp : Env → Update → Op
  | analyticsOp : Env → Update → Op

/-- Database state after one operation (analytics only reads). -/
def stepDb (s : DbState) : Op → DbState
  | Op.initOp env => (init_db env s).1
  | Op.webhookOp env u => (webhook_handler env s u).db
  | Op.analyticsOp _ _ => s

/-- Iterated init_db, stopping at the first error. -/
def initIter (env : Env) : Nat → DbState → DbState × Option PyError
  | 0, s => (s, none)
  | n + 1, s =>
    match init_db env s with
    | (s1, some e) => (s1, some e)
    | (s1, none) => initIter env n s1

/-- Trace predicate: the effect is a row insert. -/
def Effect.isInsert : Effect → Bool
  | Effect.insert _ _ _ _ => true
  | _ => false

/-- Trace predicate: the effect is an outbound send_message call. -/
def Effect.isSend : Effect → Bool
  | Effect.sendMessage _ _ => true
  | _ => false

/-- Trace predicate: the effect is a reply_text call to the sender. -/
def Effect.isReply : Effect → Bool
  | Effect.reply _ => true
  | _ => false

/-- Trace predicate: the effect is the storage-failure log line. -/
def Effect.isDbErrorLog : Effect → Bool
  | Effect.logError m => m == "Error inserting into database"
  | _ => false

/-- Whether a stored value is textual (not NULL). -/
def SqlValue.isText : SqlValue → Bool
  | SqlValue.text _ => true
  | SqlValue.null => false

/- Concrete inputs used by counterexamples and witnesses. -/

/-- Environment with working transports whose decode oracle rejects every
text (models a sender of non-JSON text). -/
def envNoJson : Env :=
  Env.mk false false false false "anna" (fun _ => "") (fun _ => none)

/-- Environment whose decode oracle returns the object mapping name to the
string Jo, all transports working. -/
def envJo : Env :=
  Env.mk false false false false "anna" (fun _ => "")
    (fun _ => some (Json.obj [("name", Json.str "Jo")]))

/-- Environment like envJo but whose sqlite connect raises. -/
def envJoConn : Env :=
  Env.mk true false false false "anna" (fun _ => "")
    (fun _ => some (Json.obj [("name", Json.str "Jo")]))

/-- Environment whose decode oracle returns the object mapping name to
JSON null, all transports working. -/
def envNull : Env :=
  Env.mk false false false false "anna" (fun _ => "")
    (fun _ => some (Json.obj [("name", Json.null)]))

/-- Environment whose decode oracle returns a JSON array, all transports
working. -/
def envArr : Env :=
  Env.mk false false false false "anna" (fun _ => "")
    (fun _ => some (Json.arr []))

/-- An inbound update carrying no message at all. -/
def uNoMessage : Update := Update.mk none

/-- An inbound update whose message has no text. -/
def uNoText : Update := Update.mk (some (Message.mk none))

/-- An inbound update whose message text is the single character x. -/
def uText : Update := Update.mk (some (Message.mk (some "x")))

/-- A database state whose submissions table exists with the canonical
columns and no rows. -/
def dbReady : DbState := DbState.mk [("submissions", submissionsColumns)] []

/- Claim theorems. -/

/-- C4: parse_form_data, applied to any key-value mapping, never raises
and returns a mapping whose keys are exactly name, email, phone,
course_interest in that order; a recognized key present in the input maps
to its bound value, an absent one maps to the string "Not provided", and
every other input key is dropped. (The function is a pure Lean function,
so freedom from side effects is inherent in the embedding.) -/
theorem claim4_parser_exact_fields (d : List (String × Json)) :
    ∃ out, parse_form_data (Json.obj d) = Except.ok out ∧
      out.map Prod.fst = ["name", "email", "phone", "course_interest"] ∧
      ∀ f v, (f, v) ∈ out ↔
        (f ∈ (["name", "email", "phone", "course_interest"] : List String) ∧
          ((d.find? (fun p => p.1 == f)).map Prod.snd = some v ∨
            (d.find? (fun p => p.1 == f) = none ∧
              v = Json.str "Not provided"))) := by
  refine ⟨parsedOf d, rfl, rfl, ?_⟩
  intro f v
  have hspec : ∀ k : String,
      ((d.find? (fun p => p.1 == k)).map Prod.snd
          = some (dictGet d k notProvided) ∨
        (d.find? (fun p => p.1 == k) = none ∧
          dictGet d k notProvided = Json.str "Not provided")) := by
    intro k
    cases hfind : d.find? (fun p => p.1 == k) with
    | none => exact Or.inr ⟨rfl, by simp [dictGet, hfind, notProvided]⟩
    | some p => exact Or.inl (by simp [dictGet, hfind])
  have huniq : ∀ (k : String) (w : Json),
      ((d.find? (fun p => p.1 == k)).map Prod.snd = some w ∨
        (d.find? (fun p => p.1 == k) = none ∧
          w = Json.str "Not provided")) →
      w = dictGet d k notProvided := by
    intro k w h
    cases hfind : d.find? (fun p => p.1 == k) with
    | none =>
      rcases h with h | h
      · rw [hfind] at h; simp at h
      · rw [h.2]; simp [dictGet, hfind, notProvided]
    | some p =>
      rcases h with h | h
      · rw [hfind] at h
        simp at h
        subst h
        simp [dictGet, hfind]
      · rw [hfind] at h; simp at h
  constructor
  · intro hmem
    simp only [parsedOf, List.map_cons, List.map_nil, List.mem_cons,
      List.not_mem_nil, or_false, Prod.mk.injEq] at hmem
    rcases hmem with ⟨hf, hv⟩ | ⟨hf, hv⟩ | ⟨hf, hv⟩ | ⟨hf, hv⟩ <;>
      (subst hf; subst hv; exact ⟨by simp, hspec _⟩)
  · rintro ⟨hf, hv⟩
    have hv2 := huniq f v hv
    subst hv2
    simp only [List.mem_cons, List.not_mem_nil, or_false] at hf
    rcases hf with rfl | rfl | rfl | rfl <;> simp [parsedOf]

/-- C1 falls on the case of a missing message: the reply that the rejected
path tries to send goes through update.message, which is None, so no reply
at all is made and an AttributeError escapes the handler instead. -/
theorem claim1_counterexample :
    (webhook_handler envNoJson dbReady uNoMessage).effects.all
        (fun e => !e.isReply) = true ∧
    (webhook_handler envNoJson dbReady uNoMessage).raised
        = some PyError.attributeError := by decide

/-- C1 amended: for every inbound event that carries a message whose text
is absent, the pipeline makes a reply call to the sender with the exact
text "No valid message received." (trailing period included) and performs
no storage call and no notification call; when the message itself is
absent the handler makes no reply and raises. -/
theorem claim1_amended (env : Env) (s : DbState) (u : Update) (m : Message)
    (hm : u.message = some m) (ht : m.text = none) :
    Effect.reply "No valid message received."
        ∈ (webhook_handler env s u).effects ∧
    (webhook_handler env s u).effects.all (fun e => !e.isInsert) = true ∧
    (webhook_handler env s u).effects.all (fun e => !e.isSend) = true ∧
    (webhook_handler env s u).db = s := by
  cases hr : env.replyErr <;>
    simp [webhook_handler, webhookBody, reply_text, hm, ht, hr,
      Effect.isInsert, Effect.isSend]

/-- Witness for claim1_amended at a concrete no-text update. -/
theorem claim1_witness :
    Effect.reply "No valid message received."
        ∈ (webhook_handler envNoJson dbReady uNoText).effects ∧
    (webhook_handler envNoJson dbReady uNoText).effects.all
        (fun e => !e.isInsert) = true ∧
    (webhook_handler envNoJson dbReady uNoText).effects.all
        (fun e => !e.isSend) = true ∧
    (webhook_handler envNoJson dbReady uNoText).db = dbReady :=
  claim1_amended envNoJson dbReady uNoText (Message.mk none) rfl rfl

/-- C3: for every inbound event whose message text is present but fails
JSON decoding, the pipeline makes a reply call to the sender with the
invalid-format text and performs no storage call (no insert, no
storage-failure log, database unchanged) and no notification call. -/
theorem claim3_malformed_json_rejected (env : Env) (s : DbState)
    (u : Update) (m : Message) (t : String)
    (hm : u.message = some m) (ht : m.text = some t)
    (hd : env.decode t = none) :
    Effect.reply "Invalid data format received. Please submit valid JSON."
        ∈ (webhook_handler env s u).effects ∧
    (webhook_handler env s u).effects.all (fun e => !e.isInsert) = true ∧
    (webhook_handler env s u).effects.all (fun e => !e.isSend) = true ∧
    (webhook_handler env s u).effects.all (fun e => !e.isDbErrorLog)
        = true ∧
    (webhook_handler env s u).db = s := by
  cases hr : env.replyErr <;>
    simp [webhook_handler, webhookBody, reply_text, hm, ht, hd, hr,
      Effect.isInsert, Effect.isSend, Effect.isDbErrorLog]

/-- Witness for claim3_malformed_json_rejected: concrete update whose text
decodes to nothing. -/
theorem claim3_witness :
    Effect.reply "Invalid data format received. Please submit valid JSON."
        ∈ (webhook_handler envNoJson dbReady uText).effects ∧
    (webhook_handler envNoJson dbReady uText).effects.all
        (fun e => !e.isInsert) = true ∧
    (webhook_handler envNoJson dbReady uText).effects.all
        (fun e => !e.isSend) = true ∧
    (webhook_handler envNoJson dbReady uText).effects.all
        (fun e => !e.isDbErrorLog) = true ∧
    (webhook_handler envNoJson dbReady uText).db = dbReady :=
  claim3_malformed_json_rejected envNoJson dbReady uText
    (Message.mk (some "x")) "x" rfl rfl rfl

/-- C10: for every inbound event whose message text decodes to a JSON
value that is not an object, the pipeline makes no reply with the
invalid-format text; it makes a reply call with the generic error text
"An error occurred while processing your request.", performs no storage
call and no notification call, and leaves the database unchanged. -/
theorem claim10_nonobject_generic_error (env : Env) (s : DbState)
    (u : Update) (m : Message) (t : String) (j : Json)
    (hm : u.message = some m) (ht : m.text = some t)
    (hd : env.decode t = some j) (hobj : ∀ kvs, j ≠ Json.obj kvs) :
    (webhook_handler env s u).effects.all
        (fun e => !(e == Effect.reply
          "Invalid data format received. Please submit valid JSON."))
        = true ∧
    Effect.reply "An error occurred while processing your request."
        ∈ (webhook_handler env s u).effects ∧
    (webhook_handler env s u).effects.all (fun e => !e.isInsert) = true ∧
    (webhook_handler env s u).effects.all (fun e => !e.isSend) = true ∧
    (webhook_handler env s u).db = s := by
  have hp : parse_form_data j = Except.error PyError.attributeError := by
    cases j with
    | obj kvs => exact absurd rfl (hobj kvs)
    | _ => rfl
  cases hr : env.replyErr <;>
    simp [webhook_handler, webhookBody, reply_text, hm, ht, hd, hp, hr,
      Effect.isInsert, Effect.isSend]

/-- Witness for claim10_nonobject_generic_error: text decoding to an empty
JSON array. -/
theorem claim10_witness :
    (webhook_handler envArr dbReady uText).effects.all
        (fun e => !(e == Effect.reply
          "Invalid data format received. Please submit valid JSON."))
        = true ∧
    Effect.reply "An error occurred while processing your request."
        ∈ (webhook_handler envArr dbReady uText).effects ∧
    (webhook_handler envArr dbReady uText).effects.all
        (fun e => !e.isInsert) = true ∧
    (webhook_handler envArr dbReady uText).effects.all
        (fun e => !e.isSend) = true ∧
    (webhook_handler envArr dbReady uText).db = dbReady :=
  claim10_nonobject_generic_error envArr dbReady uText
    (Message.mk (some "x")) "x" (Json.arr []) rfl rfl rfl
    (by intro kvs h; cases h)

/-- C5 falls on the same missing-message input: the exception raised inside
the try block is caught, but the generic-error reply in the except clause
itself evaluates update.message.reply_text on None and the resulting
AttributeError leaves the handler, so the pipeline does re-raise. -/
theorem claim5_counterexample :
    (webhook_handler envNoJson dbReady uNoMessage).raised
        = some PyError.attributeError := by decide

/-- C5 amended: every exception raised inside the handler body is caught
at the pipeline boundary and the handler terminates without re-raising,
provided the update carries a message and the reply transport does not
itself fail; when the update has no message or the generic reply raises,
that exception propagates out of the handler. -/
theorem claim5_amended (env : Env) (s : DbState) (u : Update) (m : Message)
    (hm : u.message = some m) (hr : env.replyErr = false) :
    (webhook_handler env s u).raised = none := by
  cases ht : m.text with
  | none =>
    simp [webhook_handler, webhookBody, reply_text, hm, ht, hr]
  | some t =>
    cases hd : env.decode t with
    | none =>
      simp [webhook_handler, webhookBody, reply_text, hm, ht, hd, hr]
    | some data =>
      cases hp : parse_form_data data with
      | error e =>
        simp [webhook_handler, webhookBody, reply_text, hm, ht, hd, hp, hr]
      | ok parsed =>
        rcases hst : store_submission env s parsed with ⟨es1, s1, err1⟩
        cases err1 with
        | some e =>
          simp [webhook_handler, webhookBody, reply_text, hm, ht, hd, hp,
            hst, hr]
        | none =>
          cases hsend : env.sendErr <;>
            simp [webhook_handler, webhookBody, reply_text, hm, ht, hd,
              hp, hst, hr, hsend]

/-- Witness for claim5_amended: concrete non-JSON text with working reply
transport. -/
theorem claim5_witness :
    (webhook_handler envNoJson dbReady uText).raised = none :=
  claim5_amended envNoJson dbReady uText (Message.mk (some "x")) rfl rfl

/-- The four subscript lookups of store_submission always succeed on a
parser output, whatever mapping the parser was given. -/
lemma lookupFour_parsedOf (d : List (String × Json)) :
    lookupFour (parsedOf d) = Except.ok
      (dictGet d "name" notProvided, dictGet d "email" notProvided,
       dictGet d "phone" notProvided,
       dictGet d "course_interest" notProvided) := rfl

/-- With a working connection, store_submission applied to a parser output
never lets an exception escape: the key lookups succeed on the four-key
mapping and every database error is caught by the except clause. -/
lemma store_submission_parsed_no_raise (env : Env) (s : DbState)
    (d : List (String × Json)) (hc : env.connectErr = false) :
    (store_submission env s (parsedOf d)).2.2 = none := by
  rcases hb1 : bindValue (dictGet d "name" notProvided) with e1 | v1 <;>
  rcases hb2 : bindValue (dictGet d "email" notProvided) with e2 | v2 <;>
  rcases hb3 : bindValue (dictGet d "phone" notProvided) with e3 | v3 <;>
  rcases hb4 : bindValue (dictGet d "course_interest" notProvided)
      with e4 | v4 <;>
    simp [store_submission, hc, lookupFour_parsedOf, hb1, hb2, hb3, hb4] <;>
      cases hins : env.insertErr <;>
        simp [hins] <;>
          cases hgt : getTable s.tables "submissions" <;>
            simp [hgt] <;> split <;> simp

/-- C2 falls on a failure of the connection itself: sqlite3.connect raises
sqlite3.Error, the except clause catches and logs it, but the finally
clause then calls close on the never-assigned local conn, so
store_submission raises UnboundLocalError; the pipeline catches it on the
generic-error path and sends neither the notification nor the
acknowledgment. -/
theorem claim2_counterexample :
    (store_submission envJoConn dbReady
        (parsedOf [("name", Json.str "Jo")])).2.2
        = some PyError.unboundLocalError ∧
    (webhook_handler envJoConn dbReady uText).effects.all
        (fun e => !e.isSend) = true ∧
    (webhook_handler envJoConn dbReady uText).effects.all
        (fun e => !(e == Effect.reply "Thank you for your submission!"))
        = true := by decide

/-- C2 amended: when the INSERT or the commit fails with a database error
(connection succeeded), store_submission logs the failure and returns
without raising, leaving the database unchanged, and the pipeline still
makes the outbound notification call to the fixed recipient and the
acknowledgment reply call to the sender; when opening the connection
itself fails, store_submission instead raises UnboundLocalError out of its
finally clause and the notification is not sent. -/
theorem claim2_amended (env : Env) (s : DbState) (u : Update) (m : Message)
    (t : String) (d : List (String × Json))
    (hm : u.message = some m) (ht : m.text = some t)
    (hd : env.decode t = some (Json.obj d))
    (hc : env.connectErr = false) (hi : env.insertErr = true)
    (hsend : env.sendErr = false) :
    store_submission env s (parsedOf d)
        = ([Effect.logError "Error inserting into database"], s, none) ∧
    Effect.sendMessage env.chatId
        (notification_message env.strFn (parsedOf d))
        ∈ (webhook_handler env s u).effects ∧
    Effect.reply "Thank you for your submission!"
        ∈ (webhook_handler env s u).effects := by
  have hstore : store_submission env s (parsedOf d)
      = ([Effect.logError "Error inserting into database"], s, none) := by
    rcases hb1 : bindValue (dictGet d "name" notProvided) with e1 | v1 <;>
    rcases hb2 : bindValue (dictGet d "email" notProvided) with e2 | v2 <;>
    rcases hb3 : bindValue (dictGet d "phone" notProvided) with e3 | v3 <;>
    rcases hb4 : bindValue (dictGet d "course_interest" notProvided)
        with e4 | v4 <;>
      simp [store_submission, hc, hi, lookupFour_parsedOf,
        hb1, hb2, hb3, hb4]
  refine ⟨hstore, ?_, ?_⟩ <;>
    cases hr : env.replyErr <;>
      simp [webhook_handler, webhookBody, reply_text, parse_form_data,
        hm, ht, hd, hstore, hsend, hr]

/-- Environment like envJo but whose INSERT raises a database error. -/
def envJoIns : Env :=
  Env.mk false true false false "anna" (fun _ => "")
    (fun _ => some (Json.obj [("name", Json.str "Jo")]))

/-- Witness for claim2_amended at a concrete failing INSERT. -/
theorem claim2_witness :
    store_submission envJoIns dbReady (parsedOf [("name", Json.str "Jo")])
        = ([Effect.logError "Error inserting into database"], dbReady,
           none) ∧
    Effect.sendMessage envJoIns.chatId
        (notification_message envJoIns.strFn
          (parsedOf [("name", Json.str "Jo")]))
        ∈ (webhook_handler envJoIns dbReady uText).effects ∧
    Effect.reply "Thank you for your submission!"
        ∈ (webhook_handler envJoIns dbReady uText).effects :=
  claim2_amended envJoIns dbReady uText (Message.mk (some "x")) "x"
    [("name", Json.str "Jo")] rfl rfl rfl rfl rfl rfl

/-- C6: for every inbound event decoding to a JSON object, the outbound
notification sent to the configured recipient is exactly the header line
followed by one line per field, each line being the capitalized field
name between asterisks, a colon, and the field value rendered by str, the
four lines in the order name, email, phone, course_interest. -/
theorem claim6_notification_format (env : Env) (s : DbState) (u : Update)
    (m : Message) (t : String) (d : List (String × Json))
    (hm : u.message = some m) (ht : m.text = some t)
    (hd : env.decode t = some (Json.obj d))
    (hc : env.connectErr = false) :
    Effect.sendMessage env.chatId
      ("📬 *New Form Submission!*\n\n"
        ++ "*" ++ "Name" ++ ":* "
        ++ env.strFn (dictGet d "name" notProvided) ++ "\n"
        ++ "*" ++ "Email" ++ ":* "
        ++ env.strFn (dictGet d "email" notProvided) ++ "\n"
        ++ "*" ++ "Phone" ++ ":* "
        ++ env.strFn (dictGet d "phone" notProvided) ++ "\n"
        ++ "*" ++ "Course_interest" ++ ":* "
        ++ env.strFn (dictGet d "course_interest" notProvided) ++ "\n")
      ∈ (webhook_handler env s u).effects := by
  have hmsg : notification_message env.strFn (parsedOf d)
      = "📬 *New Form Submission!*\n\n"
        ++ "*" ++ "Name" ++ ":* "
        ++ env.strFn (dictGet d "name" notProvided) ++ "\n"
        ++ "*" ++ "Email" ++ ":* "
        ++ env.strFn (dictGet d "email" notProvided) ++ "\n"
        ++ "*" ++ "Phone" ++ ":* "
        ++ env.strFn (dictGet d "phone" notProvided) ++ "\n"
        ++ "*" ++ "Course_interest" ++ ":* "
        ++ env.strFn (dictGet d "course_interest" notProvided) ++ "\n" :=
    rfl
  rcases hst : store_submission env s (parsedOf d) with ⟨es1, s1, err1⟩
  have herr : err1 = none := by
    have h := store_submission_parsed_no_raise env s d hc
    rw [hst] at h
    exact h
  subst herr
  cases hsend : env.sendErr <;> cases hr : env.replyErr <;>
    simp [webhook_handler, webhookBody, reply_text, parse_form_data,
      hm, ht, hd, hst, hsend, hr, hmsg]

/-- Witness for claim6_notification_format at a concrete submission. -/
theorem claim6_witness :
    Effect.sendMessage envJo.chatId
      ("📬 *New Form Submission!*\n\n"
        ++ "*" ++ "Name" ++ ":* "
        ++ envJo.strFn (dictGet [("name", Json.str "Jo")] "name"
            notProvided) ++ "\n"
        ++ "*" ++ "Email" ++ ":* "
        ++ envJo.strFn (dictGet [("name", Json.str "Jo")] "email"
            notProvided) ++ "\n"
        ++ "*" ++ "Phone" ++ ":* "
        ++ envJo.strFn (dictGet [("name", Json.str "Jo")] "phone"
            notProvided) ++ "\n"
        ++ "*" ++ "Course_interest" ++ ":* "
        ++ envJo.strFn (dictGet [("name", Json.str "Jo")] "course_interest"
            notProvided) ++ "\n")
      ∈ (webhook_handler envJo dbReady uText).effects :=
  claim6_notification_format envJo dbReady uText (Message.mk (some "x"))
    "x" [("name", Json.str "Jo")] rfl rfl rfl rfl

/-- C7: whenever the connection opens and a submissions table exists, the
analytics command makes exactly one reply call, whose text is exactly the
words Total submissions, a colon, and the decimal row count. -/
theorem claim7_analytics_count (env : Env) (s : DbState) (u : Update)
    (m : Message) (cols : List String)
    (hc : env.connectErr = false)
    (htab : getTable s.tables "submissions" = some cols)
    (hm : u.message = some m) :
    (analytics env s u).1.filter (fun e => e.isReply)
      = [Effect.reply ("Total submissions: " ++ toString s.rows.length)]
    := by
  cases hr : env.replyErr <;>
    simp [analytics, hc, htab, reply_text, hm, hr, List.filter,
      Effect.isReply]

/-- Witness for claim7_analytics_count on the empty table. -/
theorem claim7_witness :
    (analytics envNoJson dbReady uText).1.filter (fun e => e.isReply)
      = [Effect.reply ("Total submissions: "
          ++ toString dbReady.rows.length)] :=
  claim7_analytics_count envNoJson dbReady uText (Message.mk (some "x"))
    submissionsColumns rfl rfl rfl

/-- A list with an empty filter has a false any, for the same predicate. -/
lemma any_false_of_filter_nil {α : Type} (p : α → Bool) (l : List α)
    (h : l.filter p = []) : l.any p = false := by
  induction l with
  | nil => rfl
  | cons x xs ih =>
    by_cases hx : p x
    · simp [List.filter_cons, hx] at h
    · simp only [List.any_cons, Bool.or_eq_false_iff]
      refine ⟨by simp [hx], ih ?_⟩
      simpa [List.filter_cons, hx] using h

/-- A list with a nonempty filter has a true any, for the same
predicate. -/
lemma any_true_of_filter_ne_nil {α : Type} (p : α → Bool) (l : List α)
    (h : l.filter p ≠ []) : l.any p = true := by
  induction l with
  | nil => simp at h
  | cons x xs ih =>
    by_cases hx : p x
    · simp [List.any_cons, hx]
    · simp only [List.filter_cons, hx, Bool.false_eq_true, if_false] at h
      simp [List.any_cons, hx, ih h]

/-- One init_db call from a state whose catalog holds either no
submissions table or the canonical one reports no error, keeps the rows,
and leaves exactly one canonical submissions table in the catalog. -/
lemma init_db_establishes (env : Env) (s : DbState)
    (hc : env.connectErr = false)
    (hs : s.tables.filter (fun p => p.1 == "submissions") = [] ∨
          s.tables.filter (fun p => p.1 == "submissions")
            = [("submissions", submissionsColumns)]) :
    (init_db env s).2 = none ∧
    (init_db env s).1.rows = s.rows ∧
    (init_db env s).1.tables.filter (fun p => p.1 == "submissions")
      = [("submissions", submissionsColumns)] := by
  rcases hs with hs | hs
  · have hany : s.tables.any (fun p => p.1 == "submissions") = false :=
      any_false_of_filter_nil _ _ hs
    simp [init_db, hc, hany, List.filter_append, hs, List.filter_cons]
  · have hany : s.tables.any (fun p => p.1 == "submissions") = true :=
      any_true_of_filter_ne_nil _ _ (by rw [hs]; simp)
    simp [init_db, hc, hany, hs]

/-- Iterating init_db from a fixed point of init_db stays there without
an error. -/
lemma initIter_stable (env : Env) (s : DbState) (n : Nat)
    (hfix : init_db env s = (s, none)) :
    initIter env n s = (s, none) := by
  induction n with
  | zero => rfl
  | succ k ih => simp [initIter, hfix, ih]

/-- C9: with a working connection, calling init_db once or any number of
further times from a state holding no submissions table, or the canonical
one, never reports an error, changes nothing after the first call, never
duplicates the submissions table, leaves it existing with columns id,
name, email, phone, course_interest, and preserves all stored rows. -/
theorem claim9_init_idempotent (env : Env) (s : DbState) (n : Nat)
    (hc : env.connectErr = false)
    (hs : s.tables.filter (fun p => p.1 == "submissions") = [] ∨
          s.tables.filter (fun p => p.1 == "submissions")
            = [("submissions", submissionsColumns)]) :
    (initIter env (n + 1) s).2 = none ∧
    (initIter env (n + 1) s).1 = (init_db env s).1 ∧
    (initIter env (n + 1) s).1.tables.filter
        (fun p => p.1 == "submissions")
      = [("submissions", submissionsColumns)] ∧
    (initIter env (n + 1) s).1.rows = s.rows := by
  obtain ⟨he, hrows, hfilter⟩ := init_db_establishes env s hc hs
  rcases h1 : init_db env s with ⟨s1, err1⟩
  rw [h1] at he hrows hfilter
  simp only at he hrows hfilter
  subst he
  have hany1 : s1.tables.any (fun p => p.1 == "submissions") = true :=
    any_true_of_filter_ne_nil _ _ (by rw [hfilter]; simp)
  have hfix : init_db env s1 = (s1, none) := by
    simp [init_db, hc, hany1]
  have hiter : initIter env (n + 1) s = (s1, none) := by
    simp [initIter, h1, initIter_stable env s1 n hfix]
  simp [hiter, h1, hfilter, hrows]

/-- The empty database state, before any table has been created. -/
def dbEmpty : DbState := DbState.mk [] []

/-- Witness for claim9_init_idempotent: two calls from the empty state. -/
theorem claim9_witness :
    (initIter envNoJson (1 + 1) dbEmpty).2 = none ∧
    (initIter envNoJson (1 + 1) dbEmpty).1
      = (init_db envNoJson dbEmpty).1 ∧
    (initIter envNoJson (1 + 1) dbEmpty).1.tables.filter
        (fun p => p.1 == "submissions")
      = [("submissions", submissionsColumns)] ∧
    (initIter envNoJson (1 + 1) dbEmpty).1.rows = dbEmpty.rows :=
  claim9_init_idempotent envNoJson dbEmpty 1 rfl (Or.inl rfl)

/-- The fold computing the running maximum id never goes below its
initial value. -/
lemma le_foldl_max (rows : List Row) (a : Nat) :
    a ≤ rows.foldl (fun m r => max m r.id) a := by
  induction rows generalizing a with
  | nil => exact le_refl a
  | cons r rs ih => exact le_trans (le_max_left a r.id) (ih (max a r.id))

/-- Every member id is bounded by the running-maximum fold. -/
lemma mem_le_foldl_max (rows : List Row) (r : Row) (a : Nat)
    (h : r ∈ rows) :
    r.id ≤ rows.foldl (fun m x => max m x.id) a := by
  induction rows generalizing a with
  | nil => cases h
  | cons x xs ih =>
    rcases List.mem_cons.mp h with rfl | hmem
    · exact le_trans (le_max_right a r.id) (le_foldl_max xs (max a r.id))
    · exact ih (max a x.id) hmem

/-- The auto-assigned id is strictly larger than every stored id. -/
lemma id_lt_nextId (rows : List Row) (r : Row) (h : r ∈ rows) :
    r.id < nextId rows :=
  Nat.lt_succ_of_le (mem_le_foldl_max rows r 0 h)

/-- store_submission either leaves the rows unchanged or appends exactly
one row carrying the auto-assigned next id and all four bound values. -/
lemma store_submission_rows (env : Env) (s : DbState)
    (data : List (String × Json)) :
    (store_submission env s data).2.1.rows = s.rows ∨
    ∃ vn ve vp vc, (store_submission env s data).2.1.rows
      = s.rows ++ [Row.mk (nextId s.rows) vn ve vp vc] := by
  cases hc : env.connectErr with
  | true => left; simp [store_submission, hc]
  | false =>
    cases hl : lookupFour data with
    | error e => left; simp [store_submission, hc, hl]
    | ok q =>
      obtain ⟨jn, je, jp, jc⟩ := q
      rcases hb1 : bindValue jn with e1 | v1 <;>
      rcases hb2 : bindValue je with e2 | v2 <;>
      rcases hb3 : bindValue jp with e3 | v3 <;>
      rcases hb4 : bindValue jc with e4 | v4 <;>
        simp [store_submission, hc, hl, hb1, hb2, hb3, hb4]
      cases hins : env.insertErr with
      | true => left; simp [hins]
      | false =>
        cases hgt : getTable s.tables "submissions" with
        | none => left; simp [hins, hgt]
        | some cols =>
          by_cases hcols : cols = submissionsColumns
          · right
            exact ⟨v1, v2, v3, v4, by simp [hins, hgt, hcols]⟩
          · left; simp [hins, hgt, hcols]

/-- The webhook handler either leaves the database untouched or hands it
to store_submission for some parsed mapping. -/
lemma webhook_handler_db (env : Env) (s : DbState) (u : Update) :
    (webhook_handler env s u).db = s ∨
    ∃ parsed, (webhook_handler env s u).db
      = (store_submission env s parsed).2.1 := by
  cases hm : u.message with
  | none => left; simp [webhook_handler, webhookBody, reply_text, hm]
  | some m =>
    cases ht : m.text with
    | none =>
      left
      cases hr : env.replyErr <;>
        simp [webhook_handler, webhookBody, reply_text, hm, ht, hr]
    | some t =>
      cases hd : env.decode t with
      | none =>
        left
        cases hr : env.replyErr <;>
          simp [webhook_handler, webhookBody, reply_text, hm, ht, hd, hr]
      | some data =>
        cases hp : parse_form_data data with
        | error e =>
          left
          cases hr : env.replyErr <;>
            simp [webhook_handler, webhookBody, reply_text, hm, ht, hd,
              hp, hr]
        | ok parsed =>
          right
          refine ⟨parsed, ?_⟩
          rcases hst : store_submission env s parsed with ⟨es1, s1, err1⟩
          cases err1 <;> cases hsend : env.sendErr <;>
            cases hr : env.replyErr <;>
              simp [webhook_handler, webhookBody, reply_text, hm, ht, hd,
                hp, hst, hsend, hr]

/-- C8 falls on a JSON null field value: null passes the parser, binds as
SQL NULL, and the INSERT succeeds, so a row is written whose name column
is NULL rather than text. -/
theorem claim8_counterexample :
    (webhook_handler envNull dbReady uText).db.rows.all
        (fun r => r.name.isText && r.email.isText && r.phone.isText
          && r.course_interest.isText) = false ∧
    (webhook_handler envNull dbReady uText).db.rows.length = 1 := by
  decide

/-- C8 amended: every operation of the program appends at most one row to
the submissions table, never updating or deleting existing rows, and every
appended row carries the auto-assigned identifier, strictly larger than
every existing identifier, together with all four bound field values
(which are NULL rather than text exactly where the inbound JSON bound the
field to null). -/
theorem claim8_amended (s : DbState) (op : Op) :
    ∃ tail, (stepDb s op).rows = s.rows ++ tail ∧ tail.length ≤ 1 ∧
      ∀ r ∈ tail, ∀ r0 ∈ s.rows, r0.id < r.id := by
  cases op with
  | initOp env =>
    refine ⟨[], ?_, by simp, by simp⟩
    simp only [stepDb, init_db, List.append_nil]
    split
    · rfl
    · split <;> rfl
  | analyticsOp env u => exact ⟨[], by simp [stepDb], by simp, by simp⟩
  | webhookOp env u =>
    rcases webhook_handler_db env s u with hdb | ⟨parsed, hdb⟩
    · exact ⟨[], by simp [stepDb, hdb], by simp, by simp⟩
    · rcases store_submission_rows env s parsed with hrows |
        ⟨vn, ve, vp, vc, hrows⟩
      · exact ⟨[], by simp [stepDb, hdb, hrows], by simp, by simp⟩
      · refine ⟨[Row.mk (nextId s.rows) vn ve vp vc],
          by simp [stepDb, hdb, hrows], by simp, ?_⟩
        intro r hr r0 hr0
        simp only [List.mem_singleton] at hr
        subst hr
        exact id_lt_nextId s.rows r0 hr0

end AnnaenaBot
